import Mathlib

/-!
# go_idcenter: the MySQL storage provider

A shallow embedding of `provider/mysql_storage_provider.go` and the properties
of its three operations `BuildInfo`, `Get` and `Propel`.

Conventions of the embedding.

* A Go function that returns `(value, error)` returns `Outcome (value × Option String)`:
  either it returns normally, or it panics.
* Package-level variables and the database are fields of `World`; every
  operation takes the world before the call and returns the world after it.
* `uint64` and `uint32` values are natural numbers, reduced modulo `2 ^ 64`
  and `2 ^ 32` wherever the program adds or converts.
* A SQL statement is the value `Stmt` that the formatted text denotes.
* The result row that the driver hands over for a record is a field of the
  database: `selectRow` for mymysql, and `offsetRow` for the rows on which `get`
  returns.
* Logging is not modelled.
-/

namespace IdCenter

/-! ## Result of a call -/

/-- Result of a Go call: a normal return with its values, or a panic. -/
inductive Outcome (α : Type) where
  | ret (value : α)
  | panic
deriving DecidableEq

/-! ## Types of package `base` -/

/-- Modelled from the spec: the declaration of `base.IdRange` is not among the
sources; section 3 gives it as the value type with the two `uint64` bounds. -/
structure IdRange where
  Begin : Nat
  End : Nat
deriving DecidableEq

/-- Modelled from the spec: the declaration of `base.GroupInfo` is not among the
sources; the fields are those of section 3 and of the composite literal in `get`. -/
structure GroupInfo where
  Name : String
  Start : Nat
  Step : Nat
  Count : Nat
  Range : IdRange
  LastModified : Int
deriving DecidableEq

/-! ## The database driver (`mymysql`) and the table -/

/-- One value of a result row. -/
inductive Cell where
  | uint (n : Nat)
  | datetime (unix : Nat)
deriving DecidableEq

/-- A result row, `mysql.Row`: a slice of values, the first at position 0. -/
abbrev Row := List Cell

/-- The accessor `Row.Uint64(nn)`: the value at position `nn`; `none` stands for
a panic, that of an index outside the row or that of a value which does not
parse as a `uint64`. -/
def Row.Uint64 (row : Row) (nn : Nat) : Option Nat :=
  match row.get? nn with
  | none => none
  | some (.uint n) => if n < 2 ^ 64 then some n else none
  | some (.datetime _) => none

/-- The accessor `Row.Uint(nn)`, with a 64 bit `uint`. -/
def Row.Uint (row : Row) (nn : Nat) : Option Nat :=
  Row.Uint64 row nn

/-- The accessor `Row.Time(nn, loc)` followed by `Unix()`: seconds since the epoch;
`none` stands for a panic, that of an index outside the row or that of a value
which does not parse as a time. -/
def Row.TimeUnix (row : Row) (nn : Nat) : Option Int :=
  match row.get? nn with
  | none => none
  | some (.datetime t) => some (Int.ofNat t)
  | some (.uint _) => none

/-- The table name. -/
def TABLE_NAME : String := "group"

/-- The pool timeout, in milliseconds. -/
def TIMEOUT_MS : Nat := 100

/-- The statements the provider sends, with the formatted values as arguments. -/
inductive Stmt where
  | select (table : String) (name : String)
  | insert (table : String) (name : String) (start step count begin_ end_ : Nat)
      (creation_dt : String)
  | update (table : String) (begin_ end_ count : Nat) (name : String)
deriving DecidableEq

/-- The text of a statement, as `fmt.Sprintf` formats it. -/
def Stmt.text : Stmt → String
  | .select table name =>
    "select `start`, `step`, `count`, `begin`, `end`, `last_modified` from `" ++ table
      ++ "` where `name`='" ++ name ++ "'"
  | .insert table name start step count begin_ end_ creation_dt =>
    "insert `" ++ table
      ++ "`(`name`, `start`, `step`, `count`, `begin`, `end`, `creation_dt`) values('"
      ++ name ++ "', " ++ toString start ++ ", " ++ toString step ++ ", " ++ toString count
      ++ ", " ++ toString begin_ ++ ", " ++ toString end_ ++ ", '" ++ creation_dt ++ "')"
  | .update table begin_ end_ count name =>
    "update `" ++ table ++ "` set `begin`=" ++ toString begin_ ++ ", `end`=" ++ toString end_
      ++ ", `count`=" ++ toString count ++ " where `name`='" ++ name ++ "'"

/-- One record of the table: the columns `name`, `start`, `step`, `count`,
`begin`, `end` and `last_modified`. -/
structure GroupRow where
  name : String
  start : Nat
  step : Nat
  count : Nat
  begin_ : Nat
  end_ : Nat
  last_modified : Nat
deriving DecidableEq

/-- The database and its driver: the records of the table, the clock that stamps
`last_modified`, the statements that fail, the statements received, and the
result row that the driver hands over for a record the select of `get` matches. -/
structure Db where
  rows : List GroupRow
  clock : Nat
  fails : Stmt → Bool
  log : List Stmt
  resultRow : GroupRow → Row

/-- The record of a group, if there is one. -/
def Db.find (db : Db) (name : String) : Option GroupRow :=
  db.rows.find? (fun r => decide (r.name = name))

/-- The result row of
``select `start`, `step`, `count`, `begin`, `end`, `last_modified` ``
as mymysql delivers it: six values, in the order of the select list, the first
at position 0. -/
def selectRow (r : GroupRow) : Row :=
  [.uint r.start, .uint r.step, .uint r.count, .uint r.begin_, .uint r.end_,
    .datetime r.last_modified]

/-- A result row with the select list at positions 1 to 6, behind one leading
value: the rows on which the positions that `get` reads hold the columns its
variables are named after. mymysql does not deliver such rows for the select of
`get` (it delivers `selectRow`); on them `get` returns a `GroupInfo`, so that the
statements of `Propel` that follow `get` are reached. -/
def offsetRow (r : GroupRow) : Row :=
  [.uint 0, .uint r.start, .uint r.step, .uint r.count, .uint r.begin_, .uint r.end_,
    .datetime r.last_modified]

/-- The effect of `conn.QueryFirst(sql)`: an error, or the first row of the
result (`none` when the result is empty or the statement returns no rows). -/
def Db.QueryFirst (db : Db) (sql : Stmt) : Except String (Option Row) × Db :=
  let db1 : Db := { db with log := db.log ++ [sql] }
  if db.fails sql then
    (.error "query failed", db1)
  else
    match sql with
    | .select _ name => (.ok ((db.find name).map db.resultRow), db1)
    | .insert _ name start step count begin_ end_ _ =>
      match db.find name with
      | some _ => (.error "duplicate entry", db1)
      | none =>
        (.ok none,
          { db1 with rows := db.rows ++ [⟨name, start, step, count, begin_, end_, db.clock⟩] })
    | .update _ begin_ end_ count name =>
      (.ok none,
        { db1 with rows := db.rows.map (fun r =>
            if r.name = name then
              { r with begin_ := begin_, end_ := end_, count := count,
                       last_modified := db.clock }
            else r) })

/-! ## Package `lib`: the pool and the sign -/

/-- An element of the pool, an `interface{}`: nil, a connection, or a value of
another type. -/
inductive Element where
  | nil
  | conn (id : Nat)
  | other (type : String)
deriving DecidableEq

/-- Modelled from the spec: `lib.Pool` is not among the sources. Section 4.1: a
pool of capacity `Size`; here with the resources that are not handed out. -/
structure Pool where
  Id : String
  Size : Nat
  idle : List Element
deriving DecidableEq

/-- Modelled from the spec: `Pool.Init(factory)` of section 4.1 constructs `Size`
resources and fails with the first error of the factory. -/
def Pool.Init (p : Pool) (factory : Nat → Except String Element) : Except String Pool :=
  let rec build : Nat → Nat → Except String (List Element)
    | _, 0 => .ok []
    | i, n + 1 =>
      match factory i with
      | .error e => .error e
      | .ok x =>
        match build (i + 1) n with
        | .error e => .error e
        | .ok xs => .ok (x :: xs)
  match build 0 p.Size with
  | .error e => .error e
  | .ok xs => .ok { p with idle := xs }

/-- Modelled from the spec: `Pool.Get(timeout)` of section 4.1 hands out a
resource, or gives `ok = false` (here `none`) when the timeout passes with no
resource available. -/
def Pool.Get (p : Pool) (_timeoutMs : Nat) : Option Element × Pool :=
  match p.idle with
  | [] => (none, p)
  | x :: rest => (some x, { p with idle := rest })

/-- Modelled from the spec: `Pool.Put(resource, timeout)` of section 4.1 takes a
resource back, or gives `false` when the pool stays full. -/
def Pool.Put (p : Pool) (x : Element) (_timeoutMs : Nat) : Bool × Pool :=
  if p.idle.length < p.Size then (true, { p with idle := p.idle ++ [x] }) else (false, p)

/-- Modelled from the spec: `lib.Sign` is not among the sources. Section 4.2: one
exclusive lock per key. In a sequential run a sign is free when `Propel` starts
and free again when it ends, so only the identity of the sign is kept. -/
structure Sign where
  id : Nat
deriving DecidableEq

/-! ## The provider -/

/-- Configuration of the provider. -/
structure StorageParameter where
  Name : String
  Ip : String
  Port : Int
  DbName : String
  User : String
  Password : String
  PoolSize : Nat
deriving DecidableEq

/-- The provider. -/
structure mysqlStorageProvider where
  ProviderName : String
deriving DecidableEq

/-- The package-level variables `mysqlConnPool`, `signMap` and
`iMysqlStorageProvider` (`none` is nil), and the database the connections of
the pool talk to. -/
structure World where
  mysqlConnPool : Option Pool
  signMap : Option (List (String × Sign))
  iMysqlStorageProvider : Option mysqlStorageProvider
  db : Db

/-- The function `initializeForStorageProvider`. `dial i` is the result of
opening the `i`-th connection (`autorc.New` followed by `conn.Use`). The pool is
bound to a variable local to the function, declared by `:=`. -/
def initializeForStorageProvider (w : World) (parameter : StorageParameter)
    (dial : Nat → Except String Nat) : Option String × World :=
  let mysqlConnPool : Pool :=
    { Id := "MySQL Connection Pool", Size := parameter.PoolSize % 2 ^ 16, idle := [] }
  let initFunc : Nat → Except String Element := fun i =>
    match dial i with
    | .error err => .error err
    | .ok conn => .ok (.conn conn)
  match mysqlConnPool.Init initFunc with
  | .error err =>
    (some ("Occur error when mysql connection pool initialization (parameter=\x7b"
      ++ parameter.Name ++ " " ++ parameter.Ip ++ " " ++ toString parameter.Port ++ " "
      ++ parameter.DbName ++ " " ++ parameter.User ++ " " ++ parameter.Password ++ " "
      ++ toString parameter.PoolSize ++ "\x7d): " ++ err ++ "\n"), w)
  | .ok _ =>
    (none, { w with signMap := some [],
                    iMysqlStorageProvider := some { ProviderName := parameter.Name } })

/-- The function `getMysqlConnection`: the connection, or the error. A call on
the nil pool panics. -/
def getMysqlConnection (w : World) : Outcome (Except String Nat) × World :=
  match w.mysqlConnPool with
  | none => (.panic, w)
  | some pool =>
    match pool.Get TIMEOUT_MS with
    | (none, pool1) =>
      (.ret (.error "Getting mysql connection is FAILING!"), { w with mysqlConnPool := some pool1 })
    | (some .nil, pool1) =>
      (.ret (.error "The mysql connection is UNUSABLE!"), { w with mysqlConnPool := some pool1 })
    | (some (.conn c), pool1) =>
      (.ret (.ok c), { w with mysqlConnPool := some pool1 })
    | (some (.other t), pool1) =>
      (.ret (.error ("The type of element in pool is UNMATCHED! (type=" ++ t ++ ")")),
        { w with mysqlConnPool := some pool1 })

/-- The function `releaseMysqlConnection`; `conn = none` is the nil connection. -/
def releaseMysqlConnection (w : World) (conn : Option Nat) : Outcome Bool × World :=
  match conn with
  | none => (.ret false, w)
  | some c =>
    match w.mysqlConnPool with
    | none => (.panic, w)
    | some pool =>
      let r := pool.Put (.conn c) TIMEOUT_MS
      (.ret r.1, { w with mysqlConnPool := some r.2 })

/-- The statement `defer releaseMysqlConnection(conn)`: the release runs when the
body is left, by a return or by a panic. -/
def deferRelease {α : Type} (conn : Option Nat) (r : Outcome α × World) : Outcome α × World :=
  match releaseMysqlConnection r.2 conn with
  | (.panic, w) => (.panic, w)
  | (.ret _, w) => (r.1, w)

/-- The connection of a result of `getMysqlConnection`, nil with an error. -/
def connOf (r : Except String Nat) : Option Nat :=
  match r with
  | .ok c => some c
  | .error _ => none

/-- The method `get`: the select, and the mapping of the row read at positions
1 to 6. Every connection talks to the one database of the world. -/
def get (w : World) (_conn : Nat) (group : String) :
    Outcome (Option GroupInfo × Option String) × World :=
  let errorMsgHead := "Occur error when get group info (group=" ++ group ++ ")"
  let sql := Stmt.select TABLE_NAME group
  match w.db.QueryFirst sql with
  | (.error err, db1) =>
    (.ret (none, some (errorMsgHead ++ " (sql=" ++ sql.text ++ "): " ++ err)),
      { w with db := db1 })
  | (.ok none, db1) => (.ret (none, none), { w with db := db1 })
  | (.ok (some row), db1) =>
    let groupInfo : Option GroupInfo := do
      let start ← Row.Uint64 row 1
      let step ← Row.Uint row 2
      let count ← Row.Uint64 row 3
      let begin_ ← Row.Uint64 row 4
      let end_ ← Row.Uint64 row 5
      let lastModified ← Row.TimeUnix row 6
      pure { Name := group, Start := start, Step := step % 2 ^ 32, Count := count,
             Range := { Begin := begin_, End := end_ }, LastModified := lastModified }
    match groupInfo with
    | none => (.panic, { w with db := db1 })
    | some gi => (.ret (some gi, none), { w with db := db1 })

/-- The method `BuildInfo`. The layout given to `time.Now().Format` holds no
element of the reference time, so the formatted `creation_dt` is the layout text. -/
def BuildInfo (w : World) (group : String) (start step : Nat) :
    Outcome (Bool × Option String) × World :=
  if group.length = 0 then
    (.ret (false, some "The group name is INVALID!"), w)
  else
    let errorMsgHead := "Occur error when build group info (group=" ++ group ++ ", start="
      ++ toString start ++ ", step=" ++ toString step ++ ")"
    match getMysqlConnection w with
    | (.panic, w1) => (.panic, w1)
    | (.ret c, w1) =>
      deferRelease (connOf c) <|
        match c with
        | .error err => (.ret (false, some (errorMsgHead ++ ": " ++ err)), w1)
        | .ok conn =>
          match get w1 conn group with
          | (.panic, w2) => (.panic, w2)
          | (.ret (_, some err), w2) => (.ret (false, some (errorMsgHead ++ ": " ++ err)), w2)
          | (.ret (some _, none), w2) => (.ret (false, none), w2)
          | (.ret (none, none), w2) =>
            let creation_dt := "EEEE-MM-dd HH:mm:ss.SSS"
            let sql := Stmt.insert TABLE_NAME group start step 0 start start creation_dt
            match w2.db.QueryFirst sql with
            | (.error err, db3) =>
              (.ret (false, some (errorMsgHead ++ " (sql=" ++ sql.text ++ "): " ++ err)),
                { w2 with db := db3 })
            | (.ok _, db3) => (.ret (true, none), { w2 with db := db3 })

/-- The method `Get`. -/
def Get (w : World) (group : String) : Outcome (Option GroupInfo × Option String) × World :=
  if group.length = 0 then
    (.ret (none, some "The group name is INVALID!"), w)
  else
    let errorMsgHead := "Occur error when get group info (group=" ++ group ++ ")"
    match getMysqlConnection w with
    | (.panic, w1) => (.panic, w1)
    | (.ret c, w1) =>
      deferRelease (connOf c) <|
        match c with
        | .error err => (.ret (none, some (errorMsgHead ++ ": " ++ err)), w1)
        | .ok conn => get w1 conn group

/-- The function `getSign`: the sign of the group, made and registered at the
first request; nil for the empty name. An assignment into the nil map panics. -/
def getSign (w : World) (group : String) : Outcome (Option Sign) × World :=
  if group.length = 0 then
    (.ret none, w)
  else
    match w.signMap with
    | none => (.panic, w)
    | some m =>
      match m.lookup group with
      | some sign => (.ret (some sign), w)
      | none =>
        let sign : Sign := { id := m.length }
        (.ret (some sign), { w with signMap := some (m ++ [(group, sign)]) })

/-- The method `Propel`. -/
def Propel (w : World) (group : String) : Outcome (Option IdRange × Option String) × World :=
  if group.length = 0 then
    (.ret (none, some "The group name is INVALID!"), w)
  else
    match getSign w group with
    | (.panic, w0) => (.panic, w0)
    | (.ret none, w0) => (.panic, w0)
    | (.ret (some _), w0) =>
      if group.length = 0 then
        (.ret (none, some "The group name is INVALID!"), w0)
      else
        let errorMsgHead := "Occur error when propel (group=" ++ group ++ ")"
        match getMysqlConnection w0 with
        | (.panic, w1) => (.panic, w1)
        | (.ret c, w1) =>
          deferRelease (connOf c) <|
            match c with
            | .error err => (.ret (none, some (errorMsgHead ++ ": " ++ err)), w1)
            | .ok conn =>
              match get w1 conn group with
              | (.panic, w2) => (.panic, w2)
              | (.ret (_, some err), w2) => (.ret (none, some (errorMsgHead ++ ": " ++ err)), w2)
              | (.ret (none, none), w2) => (.ret (none, none), w2)
              | (.ret (some groupInfo, none), w2) =>
                let idRange := groupInfo.Range
                let newBegin := (idRange.Begin + idRange.End) % 2 ^ 64
                let newEnd := (idRange.End + groupInfo.Step) % 2 ^ 64
                let newCount := (groupInfo.Count + 1) % 2 ^ 64
                let sql := Stmt.update TABLE_NAME newBegin newEnd newCount group
                match w2.db.QueryFirst sql with
                | (.error err, db3) =>
                  (.ret (none, some (errorMsgHead ++ " (sql=" ++ sql.text ++ "): " ++ err)),
                    { w2 with db := db3 })
                | (.ok _, db3) =>
                  (.ret (some { Begin := newBegin, End := newEnd }, none), { w2 with db := db3 })

/-! ## Sequential runs and sample worlds -/

/-- Sequential calls of `Propel` for one group, each on the world the previous
call left: the outcomes in call order, and the world after the last call. -/
def propelSeq (w : World) (group : String) :
    Nat → List (Outcome (Option IdRange × Option String)) × World
  | 0 => ([], w)
  | n + 1 =>
    let r := Propel w group
    let rest := propelSeq r.2 group n
    (r.1 :: rest.1, rest.2)

/-- The range a call returned, if it returned one. -/
def rangeOf : Outcome (Option IdRange × Option String) → Option IdRange
  | .ret (some R, _) => some R
  | _ => none

/-- The ranges returned by `n` sequential calls of `Propel`, in call order. -/
def returnedRanges (w : World) (group : String) (n : Nat) : List IdRange :=
  (propelSeq w group n).1.filterMap rangeOf

/-- Every one of `n` sequential `Propel` calls returned a range. -/
def allSucceeded (w : World) (group : String) (n : Nat) : Bool :=
  (propelSeq w group n).1.all (fun o => (rangeOf o).isSome)

/-- None of the additions `begin + end` and `end + step` on the stored record
exceeds the largest `uint64`, at any of `n` sequential `Propel` calls. -/
def noOverflow (w : World) (group : String) : Nat → Bool
  | 0 => true
  | n + 1 =>
    (match w.db.find group with
      | none => true
      | some r => decide (r.begin_ + r.end_ < 2 ^ 64 ∧ r.end_ + r.step < 2 ^ 64)) &&
    noOverflow (Propel w group).2 group n

/-- An empty table on a database where no statement fails, with the rows of
mymysql. -/
def emptyDb : Db :=
  { rows := [], clock := 7, fails := fun _ => false, log := [], resultRow := selectRow }

/-- A world with an initialised pool of one connection, an empty sign map, the
provider, and the empty table. -/
def readyWorld : World :=
  { mysqlConnPool := some { Id := "MySQL Connection Pool", Size := 1, idle := [.conn 0] },
    signMap := some [],
    iMysqlStorageProvider := some { ProviderName := "idcenter" },
    db := emptyDb }

/-- The world `readyWorld` with one stored record: group `g`, start 1000,
step 2000, count 0, begin 1000, end 1000. -/
def storedWorld : World :=
  { readyWorld with db := { emptyDb with rows := [⟨"g", 1000, 2000, 0, 1000, 1000, 7⟩] } }

/-- The world `readyWorld` on a driver that delivers the rows `offsetRow`. -/
def offsetWorld : World :=
  { readyWorld with db := { emptyDb with resultRow := offsetRow } }

/-- The conditions under which a `Propel` call for the group goes through on
offset rows, with the pool of `offsetWorld`: the sign map is initialised, the
pool holds its connection, no statement fails, and the record of the group
holds values of its column types. -/
def goesThrough (w : World) (group : String) : Prop :=
  group.length ≠ 0 ∧
  w.mysqlConnPool = some { Id := "MySQL Connection Pool", Size := 1, idle := [.conn 0] } ∧
  (∃ m, w.signMap = some m) ∧
  (∀ s, w.db.fails s = false) ∧
  w.db.resultRow = offsetRow ∧
  ∃ r, w.db.find group = some r ∧ r.start < 2 ^ 64 ∧ r.step < 2 ^ 64 ∧ r.count < 2 ^ 64 ∧
    r.begin_ < 2 ^ 64 ∧ r.end_ < 2 ^ 64

/-- The world before initialisation: every package-level variable is nil. -/
def freshWorld : World :=
  { mysqlConnPool := none, signMap := none, iMysqlStorageProvider := none, db := emptyDb }

/-- A sample configuration with a pool of two connections. -/
def sampleParameter : StorageParameter :=
  { Name := "idcenter", Ip := "127.0.0.1", Port := 3306, DbName := "idcenter",
    User := "root", Password := "", PoolSize := 2 }

/-! ## Lemmas on the parts -/

theorem QueryFirst_frame (db : Db) (sql : Stmt) :
    (db.QueryFirst sql).2.clock = db.clock ∧ (db.QueryFirst sql).2.fails = db.fails ∧
    (db.QueryFirst sql).2.resultRow = db.resultRow := by
  unfold Db.QueryFirst
  split
  · exact ⟨rfl, rfl, rfl⟩
  · cases sql with
    | select t n => exact ⟨rfl, rfl, rfl⟩
    | insert t n a b c d e f =>
      simp only
      split <;> exact ⟨rfl, rfl, rfl⟩
    | update t b e c n => exact ⟨rfl, rfl, rfl⟩

theorem get_absent (w : World) (conn : Nat) (group : String)
    (hsel : w.db.fails (.select TABLE_NAME group) = false)
    (habsent : w.db.find group = none) :
    get w conn group = (.ret (none, none),
      { w with db := { w.db with log := w.db.log ++ [.select TABLE_NAME group] } }) := by
  unfold get Db.QueryFirst
  simp [hsel, habsent]

theorem get_offset (w : World) (conn : Nat) (group : String)
    (hl : w.db.resultRow = offsetRow) :
    get w conn group =
      if w.db.fails (.select TABLE_NAME group) then
        (.ret (none, some ("Occur error when get group info (group=" ++ group ++ ")"
            ++ " (sql=" ++ (Stmt.select TABLE_NAME group).text ++ "): " ++ "query failed")),
          { w with db := { w.db with log := w.db.log ++ [.select TABLE_NAME group] } })
      else
        match w.db.find group with
        | none => (.ret (none, none),
            { w with db := { w.db with log := w.db.log ++ [.select TABLE_NAME group] } })
        | some r =>
          if r.start < 2 ^ 64 ∧ r.step < 2 ^ 64 ∧ r.count < 2 ^ 64 ∧ r.begin_ < 2 ^ 64 ∧
              r.end_ < 2 ^ 64 then
            (.ret (some { Name := group, Start := r.start, Step := r.step % 2 ^ 32,
                          Count := r.count, Range := { Begin := r.begin_, End := r.end_ },
                          LastModified := Int.ofNat r.last_modified }, none),
              { w with db := { w.db with log := w.db.log ++ [.select TABLE_NAME group] } })
          else
            (.panic,
              { w with db := { w.db with log := w.db.log ++ [.select TABLE_NAME group] } }) := by
  unfold get Db.QueryFirst
  by_cases hf : w.db.fails (.select TABLE_NAME group) = true
  · simp [hf]
  · simp only [hf]
    cases hfind : w.db.find group with
    | none => simp
    | some r =>
      by_cases h1 : r.start < 18446744073709551616 <;>
      by_cases h2 : r.step < 18446744073709551616 <;>
      by_cases h3 : r.count < 18446744073709551616 <;>
      by_cases h4 : r.begin_ < 18446744073709551616 <;>
      by_cases h5 : r.end_ < 18446744073709551616 <;>
      simp [hl, offsetRow, Row.Uint64, Row.Uint, Row.TimeUnix, h1, h2, h3, h4, h5]

theorem get_select (w : World) (conn : Nat) (group : String)
    (hl : w.db.resultRow = selectRow) (gi : GroupInfo) (e : Option String) :
    (get w conn group).1 ≠ .ret (some gi, e) := by
  unfold get Db.QueryFirst
  by_cases hf : w.db.fails (.select TABLE_NAME group) = true
  · simp [hf]
  · simp only [hf]
    cases hfind : w.db.find group with
    | none => simp
    | some r =>
      by_cases h1 : r.start < 18446744073709551616 <;>
      by_cases h2 : r.step < 18446744073709551616 <;>
      by_cases h3 : r.count < 18446744073709551616 <;>
      by_cases h4 : r.begin_ < 18446744073709551616 <;>
      by_cases h5 : r.end_ < 18446744073709551616 <;>
      simp [hl, selectRow, Row.Uint64, Row.Uint, Row.TimeUnix, h1, h2, h3, h4, h5]


theorem get_offset_some (w : World) (conn : Nat) (group : String) (gi : GroupInfo)
    (w2 : World) (hl : w.db.resultRow = offsetRow)
    (h : get w conn group = (.ret (some gi, none), w2)) :
    ∃ r, w.db.find group = some r ∧ w.db.fails (.select TABLE_NAME group) = false ∧
      r.step < 2 ^ 64 ∧ r.count < 2 ^ 64 ∧ r.begin_ < 2 ^ 64 ∧ r.end_ < 2 ^ 64 ∧
      gi.Step = r.step % 2 ^ 32 ∧ gi.Count = r.count ∧ gi.Range.Begin = r.begin_ ∧
      gi.Range.End = r.end_ ∧
      w2 = { w with db := { w.db with log := w.db.log ++ [.select TABLE_NAME group] } } := by
  rw [get_offset w conn group hl] at h
  by_cases hf : w.db.fails (.select TABLE_NAME group) = true
  · simp [hf] at h
  · simp only [hf, Bool.false_eq_true, if_false] at h
    cases hfind : w.db.find group with
    | none => simp [hfind] at h
    | some r =>
      simp only [hfind] at h
      split at h
      · rename_i hb
        obtain ⟨_, h2, h3, h4, h5⟩ := hb
        simp only [Prod.mk.injEq, Outcome.ret.injEq, Option.some.injEq, and_true] at h
        obtain ⟨hgi, hw⟩ := h
        refine ⟨r, rfl, by simpa using hf, h2, h3, h4, h5, ?_, ?_, ?_, ?_, hw.symm⟩ <;>
          (rw [← hgi])
      · simp at h

theorem getSign_db (w : World) (group : String) : (getSign w group).2.db = w.db := by
  unfold getSign
  split
  · rfl
  · split
    · rfl
    · split <;> rfl

theorem getMysqlConnection_db (w : World) : (getMysqlConnection w).2.db = w.db := by
  unfold getMysqlConnection
  split
  · rfl
  · split <;> rfl

theorem getMysqlConnection_pool (w w1 : World) (c : Nat)
    (h : getMysqlConnection w = (.ret (.ok c), w1)) : ∃ p, w1.mysqlConnPool = some p := by
  unfold getMysqlConnection at h
  split at h
  · simp at h
  · split at h <;> simp at h
    exact ⟨_, by rw [← h.2]⟩


theorem get_world (w : World) (conn : Nat) (group : String) :
    (get w conn group).2 =
      { w with db := { w.db with log := w.db.log ++ [.select TABLE_NAME group] } } := by
  unfold get Db.QueryFirst
  by_cases hf : w.db.fails (.select TABLE_NAME group) = true
  · simp [hf]
  · simp only [hf]
    cases hfind : w.db.find group with
    | none => simp
    | some r =>
      simp only [Option.map_some', Bool.false_eq_true, if_false]
      split <;> rfl

theorem deferRelease_db {α : Type} (conn : Option Nat) (r : Outcome α × World) :
    (deferRelease conn r).2.db = r.2.db := by
  unfold deferRelease releaseMysqlConnection
  cases conn with
  | none => rfl
  | some c =>
    cases h : r.2.mysqlConnPool with
    | none => simp [h]
    | some p => simp [h]

theorem deferRelease_fst {α : Type} (conn : Option Nat) (r : Outcome α × World) :
    (deferRelease conn r).1 = r.1 ∨ (deferRelease conn r).1 = .panic := by
  unfold deferRelease releaseMysqlConnection
  cases conn with
  | none => left; rfl
  | some c =>
    cases h : r.2.mysqlConnPool with
    | none => right; simp [h]
    | some p => left; simp [h]

theorem deferRelease_pool {α : Type} (conn : Option Nat) (r : Outcome α × World) (p : Pool)
    (h : r.2.mysqlConnPool = some p) : (deferRelease conn r).1 = r.1 := by
  unfold deferRelease releaseMysqlConnection
  cases conn with
  | none => rfl
  | some c => simp [h]

theorem deferRelease_no_range (conn : Option Nat)
    (r : Outcome (Option IdRange × Option String) × World)
    (h : rangeOf r.1 = none) : rangeOf (deferRelease conn r).1 = none := by
  rcases deferRelease_fst conn r with h1 | h1
  · rw [h1]; exact h
  · rw [h1]; rfl

theorem Propel_offset (w : World) (group : String) (hl : w.db.resultRow = offsetRow) :
    (rangeOf (Propel w group).1 = none ∧ (Propel w group).2.db.rows = w.db.rows) ∨
    (∃ r, w.db.find group = some r ∧ r.step < 2 ^ 64 ∧ r.count < 2 ^ 64 ∧
      r.begin_ < 2 ^ 64 ∧ r.end_ < 2 ^ 64 ∧
      rangeOf (Propel w group).1 =
        some ⟨(r.begin_ + r.end_) % 2 ^ 64, (r.end_ + r.step % 2 ^ 32) % 2 ^ 64⟩ ∧
      (Propel w group).2.db.rows = w.db.rows.map (fun x =>
        if x.name = group then
          { x with begin_ := (r.begin_ + r.end_) % 2 ^ 64,
                   end_ := (r.end_ + r.step % 2 ^ 32) % 2 ^ 64,
                   count := (r.count + 1) % 2 ^ 64, last_modified := w.db.clock }
        else x)) := by
  unfold Propel
  by_cases hlen : group.length = 0
  · left; simp [hlen, rangeOf]
  · simp only [hlen, if_false]
    rcases hs : getSign w group with ⟨o, w0⟩
    have h0 : w0.db = w.db := by
      have := getSign_db w group; rw [hs] at this; exact this
    rcases o with (_ | s) | _
    · left; exact ⟨rfl, by simp [h0]⟩
    · simp only
      rcases hc : getMysqlConnection w0 with ⟨oc, w1⟩
      have h1 : w1.db = w0.db := by
        have := getMysqlConnection_db w0; rw [hc] at this; exact this
      rcases oc with c | _
      · rcases c with err | c
        · left
          refine ⟨deferRelease_no_range _ _ rfl, ?_⟩
          simp [deferRelease_db, h1, h0]
        · obtain ⟨p, hp⟩ := getMysqlConnection_pool w0 w1 c hc
          simp only
          rcases hg : get w1 c group with ⟨og, w2⟩
          have hw2 : w2 = { w1 with db := { w1.db with
              log := w1.db.log ++ [.select TABLE_NAME group] } } := by
            have := get_world w1 c group; rw [hg] at this; exact this
          subst hw2
          have h10 : w1.db = w.db := h1.trans h0
          rcases og with ⟨gi, e⟩ | _
          · rcases e with _ | e
            · rcases gi with _ | gi
              · left
                refine ⟨deferRelease_no_range _ _ rfl, ?_⟩
                simp [deferRelease_db, h10]
              · have hl1 : w1.db.resultRow = offsetRow := by rw [h10]; exact hl
                obtain ⟨r, hfind, _, hb2, hb3, hb4, hb5, hst, hcount, hbeg, hend, _⟩ :=
                  get_offset_some w1 c group gi _ hl1 hg
                have hfind' : w.db.find group = some r := by rw [← h10]; exact hfind
                simp only [hst, hcount, hbeg, hend]
                by_cases hu : w.db.fails (.update TABLE_NAME
                    ((r.begin_ + r.end_) % 18446744073709551616)
                    ((r.end_ + r.step % 4294967296) % 18446744073709551616)
                    ((r.count + 1) % 18446744073709551616) group) = true
                · left
                  refine ⟨deferRelease_no_range _ _ ?_, ?_⟩
                  · simp [Db.QueryFirst, hu, rangeOf, h10]
                  · simp [deferRelease_db, Db.QueryFirst, hu, h10]
                · right
                  refine ⟨r, hfind', hb2, hb3, hb4, hb5, ?_, ?_⟩
                  · rw [deferRelease_pool _ _ p (by simp [Db.QueryFirst, hu, hp, h10])]
                    simp [Db.QueryFirst, hu, rangeOf, h10]
                  · simp [deferRelease_db, Db.QueryFirst, hu, h10]
            · left
              refine ⟨deferRelease_no_range _ _ (by cases gi <;> rfl), ?_⟩
              cases gi <;> simp [deferRelease_db, h10]
          · left
            refine ⟨deferRelease_no_range _ _ rfl, ?_⟩
            simp [deferRelease_db, h10]
      · left; exact ⟨rfl, by simp [h1, h0]⟩
    · left; exact ⟨rfl, by simp [h0]⟩


theorem QueryFirst_frame_of (db : Db) (sql : Stmt) (res : Except String (Option Row))
    (db3 : Db) (h : db.QueryFirst sql = (res, db3)) :
    db3.resultRow = db.resultRow ∧ db3.fails = db.fails ∧ db3.clock = db.clock := by
  have := QueryFirst_frame db sql
  rw [h] at this
  exact ⟨this.2.2, this.2.1, this.1⟩

theorem Propel_frame (w : World) (group : String) :
    (Propel w group).2.db.resultRow = w.db.resultRow ∧
    (Propel w group).2.db.fails = w.db.fails ∧
    (Propel w group).2.db.clock = w.db.clock := by
  unfold Propel
  by_cases hlen : group.length = 0
  · simp [hlen]
  · simp only [hlen, if_false]
    rcases hs : getSign w group with ⟨o, w0⟩
    have h0 : w0.db = w.db := by
      have := getSign_db w group; rw [hs] at this; exact this
    rcases o with (_ | s) | _
    · simp [h0]
    · simp only
      rcases hc : getMysqlConnection w0 with ⟨oc, w1⟩
      have h1 : w1.db = w0.db := by
        have := getMysqlConnection_db w0; rw [hc] at this; exact this
      have h10 : w1.db = w.db := h1.trans h0
      rcases oc with c | _
      · simp only [deferRelease_db]
        rcases c with err | c
        · simp [h10]
        · simp only
          rcases hg : get w1 c group with ⟨og, w2⟩
          have hw2 : w2 = { w1 with db := { w1.db with
              log := w1.db.log ++ [.select TABLE_NAME group] } } := by
            have := get_world w1 c group; rw [hg] at this; exact this
          subst hw2
          rcases og with ⟨gi, e⟩ | _
          · rcases e with _ | e
            · rcases gi with _ | gi
              · simp [h10]
              · simp only
                rcases hq : Db.QueryFirst _ _ with ⟨res, db3⟩
                have hfr := QueryFirst_frame_of _ _ _ _ hq
                simp only at hfr
                rcases res with e | a <;> simp [hfr, h10]
            · cases gi <;> simp [h10]
          · simp [h10]
      · simp [h10]
    · simp [h0]

theorem propelSeq_frame (w : World) (group : String) (n : Nat) :
    (propelSeq w group n).2.db.resultRow = w.db.resultRow ∧
    (propelSeq w group n).2.db.fails = w.db.fails := by
  induction n generalizing w with
  | zero => exact ⟨rfl, rfl⟩
  | succ n ih =>
    show (propelSeq (Propel w group).2 group n).2.db.resultRow = w.db.resultRow ∧
      (propelSeq (Propel w group).2 group n).2.db.fails = w.db.fails
    rw [(ih _).1, (ih _).2, (Propel_frame w group).1, (Propel_frame w group).2.1]
    exact ⟨rfl, rfl⟩

theorem find_map_update (rows : List GroupRow) (group : String) (r : GroupRow)
    (b e c t : Nat)
    (h : rows.find? (fun x => decide (x.name = group)) = some r) :
    (rows.map (fun x =>
        if x.name = group then
          { x with begin_ := b, end_ := e, count := c, last_modified := t }
        else x)).find? (fun x => decide (x.name = group)) =
      some { r with begin_ := b, end_ := e, count := c, last_modified := t } := by
  induction rows with
  | nil => simp at h
  | cons x xs ih =>
    by_cases hx : x.name = group
    · have hxr : x = r := by simpa [List.find?, hx] using h
      subst hxr
      simp only [List.map_cons, hx, if_true]
      rw [List.find?_cons_of_pos]
      simp [hx]
    · have hxs : xs.find? (fun x => decide (x.name = group)) = some r := by
        simpa [List.find?, hx] using h
      simp only [List.map_cons, hx, if_false]
      rw [List.find?_cons_of_neg]
      · exact ih hxs
      · simp [hx]

theorem Propel_some (w : World) (group : String) (R : IdRange)
    (hl : w.db.resultRow = offsetRow) (hR : rangeOf (Propel w group).1 = some R) :
    ∃ r, w.db.find group = some r ∧ r.step < 2 ^ 64 ∧ r.count < 2 ^ 64 ∧
      r.begin_ < 2 ^ 64 ∧ r.end_ < 2 ^ 64 ∧
      R = ⟨(r.begin_ + r.end_) % 2 ^ 64, (r.end_ + r.step % 2 ^ 32) % 2 ^ 64⟩ ∧
      (Propel w group).2.db.find group =
        some { r with begin_ := (r.begin_ + r.end_) % 2 ^ 64,
                      end_ := (r.end_ + r.step % 2 ^ 32) % 2 ^ 64,
                      count := (r.count + 1) % 2 ^ 64, last_modified := w.db.clock } := by
  rcases Propel_offset w group hl with ⟨hnone, _⟩ | ⟨r, hfind, h2, h3, h4, h5, hrange, hrows⟩
  · rw [hnone] at hR; cases hR
  · refine ⟨r, hfind, h2, h3, h4, h5, ?_, ?_⟩
    · rw [hrange] at hR; exact (Option.some.inj hR).symm
    · unfold Db.find
      rw [hrows]
      exact find_map_update w.db.rows group r _ _ _ _ hfind

theorem Propel_none (w : World) (group : String)
    (hl : w.db.resultRow = offsetRow) (h : rangeOf (Propel w group).1 = none) :
    (Propel w group).2.db.find group = w.db.find group := by
  rcases Propel_offset w group hl with ⟨_, hrows⟩ | ⟨r, _, _, _, _, _, hrange, _⟩
  · unfold Db.find; rw [hrows]
  · rw [hrange] at h; cases h

theorem propelSeq_succ (w : World) (group : String) (n : Nat) :
    propelSeq w group (n + 1) =
      ((Propel w group).1 :: (propelSeq (Propel w group).2 group n).1,
        (propelSeq (Propel w group).2 group n).2) := rfl

theorem returnedRanges_succ (w : World) (group : String) (n : Nat) :
    returnedRanges w group (n + 1) =
      (rangeOf (Propel w group).1).toList ++ returnedRanges (Propel w group).2 group n := by
  unfold returnedRanges
  rw [propelSeq_succ]
  simp only [List.filterMap_cons]
  cases rangeOf (Propel w group).1 <;> rfl

theorem allSucceeded_succ (w : World) (group : String) (n : Nat) :
    allSucceeded w group (n + 1) =
      ((rangeOf (Propel w group).1).isSome && allSucceeded (Propel w group).2 group n) := by
  unfold allSucceeded
  rw [propelSeq_succ]
  simp only [List.all_cons]

theorem run_count (group : String) (n : Nat) : ∀ (w : World) (r : GroupRow),
    w.db.resultRow = offsetRow → w.db.find group = some r → r.count < 2 ^ 64 →
    allSucceeded w group n = true →
    ((propelSeq w group n).2.db.find group).map (fun x => x.count)
      = some ((r.count + n) % 2 ^ 64) := by
  induction n with
  | zero =>
    intro w r _ hfind hc _
    show (w.db.find group).map (fun x => x.count) = _
    rw [hfind]
    simp only [Option.map_some', Nat.add_zero, Nat.mod_eq_of_lt hc]
  | succ n ih =>
    intro w r hl hfind hc hs
    rw [allSucceeded_succ, Bool.and_eq_true] at hs
    obtain ⟨hs1, hs2⟩ := hs
    obtain ⟨R, hR⟩ := Option.isSome_iff_exists.mp hs1
    obtain ⟨r', hfind', _, _, _, _, _, hafter⟩ := Propel_some w group R hl hR
    rw [hfind] at hfind'
    cases hfind'
    have hl' : (Propel w group).2.db.resultRow = offsetRow := by
      rw [(Propel_frame w group).1]; exact hl
    have := ih (Propel w group).2 _ hl' hafter (Nat.mod_lt _ (by norm_num)) hs2
    rw [propelSeq_succ]
    simp only at this ⊢
    rw [this]
    congr 1
    omega

theorem run_begin (group : String) (n : Nat) : ∀ (w : World) (r : GroupRow),
    w.db.resultRow = offsetRow → w.db.find group = some r →
    noOverflow w group n = true →
    ∀ R ∈ returnedRanges w group n, r.end_ ≤ R.Begin := by
  induction n with
  | zero =>
    intro w r _ _ _ R hR
    simp [returnedRanges, propelSeq] at hR
  | succ n ih =>
    intro w r hl hfind hno R hR
    have hl' : (Propel w group).2.db.resultRow = offsetRow := by
      rw [(Propel_frame w group).1]; exact hl
    unfold noOverflow at hno
    rw [Bool.and_eq_true, hfind] at hno
    obtain ⟨hbound, hno'⟩ := hno
    simp only [decide_eq_true_eq] at hbound
    rw [returnedRanges_succ] at hR
    cases hrange : rangeOf (Propel w group).1 with
    | none =>
      rw [hrange] at hR
      have hsame := Propel_none w group hl hrange
      exact ih _ r hl' (hsame.trans hfind) hno' R (by simpa using hR)
    | some R1 =>
      rw [hrange] at hR
      obtain ⟨r', hfind', _, _, _, _, hR1, hafter⟩ := Propel_some w group R1 hl hrange
      rw [hfind] at hfind'
      cases hfind'
      have hmod : r.step % 2 ^ 32 ≤ r.step := Nat.mod_le _ _
      rcases List.mem_append.mp hR with hR | hR
      · simp only [Option.toList, List.mem_singleton] at hR
        subst hR
        rw [hR1]
        show r.end_ ≤ (r.begin_ + r.end_) % 2 ^ 64
        rw [Nat.mod_eq_of_lt hbound.1]
        omega
      · have := ih _ _ hl' hafter hno' R hR
        simp only at this
        have h2 : (r.end_ + r.step % 2 ^ 32) % 2 ^ 64 = r.end_ + r.step % 2 ^ 32 :=
          Nat.mod_eq_of_lt (by omega)
        omega

theorem run_pairwise (group : String) (n : Nat) : ∀ (w : World),
    w.db.resultRow = offsetRow → noOverflow w group n = true →
    (returnedRanges w group n).Pairwise (fun R1 R2 => R2.Begin ≥ R1.End) := by
  induction n with
  | zero =>
    intro w _ _
    simp [returnedRanges, propelSeq]
  | succ n ih =>
    intro w hl hno
    have hl' : (Propel w group).2.db.resultRow = offsetRow := by
      rw [(Propel_frame w group).1]; exact hl
    have hno' : noOverflow (Propel w group).2 group n = true := by
      unfold noOverflow at hno
      rw [Bool.and_eq_true] at hno
      exact hno.2
    rw [returnedRanges_succ]
    cases hrange : rangeOf (Propel w group).1 with
    | none => simpa using ih _ hl' hno'
    | some R1 =>
      obtain ⟨r, hfind, _, _, _, _, hR1, hafter⟩ := Propel_some w group R1 hl hrange
      simp only [Option.toList, List.singleton_append, List.pairwise_cons]
      refine ⟨?_, ih _ hl' hno'⟩
      intro R hR
      have := run_begin group n _ _ hl' hafter hno' R hR
      simp only at this
      rw [hR1]
      exact this

theorem get_none_inv (w : World) (conn : Nat) (group : String) (w2 : World)
    (h : get w conn group = (.ret (none, none), w2)) :
    w.db.find group = none := by
  unfold get Db.QueryFirst at h
  by_cases hf : w.db.fails (.select TABLE_NAME group) = true
  · simp [hf] at h
  · simp only [hf] at h
    cases hfind : w.db.find group with
    | none => rfl
    | some r =>
      simp only [hfind, Option.map_some', Bool.false_eq_true, if_false] at h
      split at h <;> simp at h

theorem find_append_new (rows : List GroupRow) (r : GroupRow)
    (h : rows.find? (fun x => decide (x.name = r.name)) = none) :
    (rows ++ [r]).find? (fun x => decide (x.name = r.name)) = some r := by
  rw [List.find?_append, h]
  simp

theorem ret_of_deferRelease {α : Type} (conn : Option Nat) (r : Outcome α × World) (v : α)
    (h : (deferRelease conn r).1 = .ret v) : r.1 = .ret v := by
  rcases deferRelease_fst conn r with h1 | h1
  · rw [← h1]; exact h
  · rw [h1] at h; cases h

theorem BuildInfo_built (w : World) (group : String) (start step : Nat)
    (h : (BuildInfo w group start step).1 = .ret (true, none)) :
    (BuildInfo w group start step).2.db.find group =
      some ⟨group, start, step, 0, start, start, w.db.clock⟩ ∧
    (BuildInfo w group start step).2.db.resultRow = w.db.resultRow ∧
    (BuildInfo w group start step).2.db.fails = w.db.fails ∧
    (BuildInfo w group start step).2.mysqlConnPool.isSome = true := by
  revert h
  unfold BuildInfo
  by_cases hlen : group.length = 0
  · simp [hlen]
  · simp only [hlen, if_false]
    rcases hc : getMysqlConnection w with ⟨oc, w1⟩
    have h1 : w1.db = w.db := by
      have := getMysqlConnection_db w; rw [hc] at this; exact this
    rcases oc with c | _
    · rcases c with err | c
      · intro h
        have h := ret_of_deferRelease _ _ _ h
        simp at h
      · obtain ⟨p, hp⟩ := getMysqlConnection_pool w w1 c hc
        simp only
        rcases hg : get w1 c group with ⟨og, w2⟩
        have hw2 : w2 = { w1 with db := { w1.db with
            log := w1.db.log ++ [.select TABLE_NAME group] } } := by
          have := get_world w1 c group; rw [hg] at this; exact this
        subst hw2
        rcases og with ⟨gi, e⟩ | _
        · rcases e with _ | e
          · rcases gi with _ | gi
            · have hfind : w1.db.find group = none := get_none_inv w1 c group _ hg
              simp only [Db.QueryFirst]
              by_cases hi : w1.db.fails (.insert TABLE_NAME group start step 0 start start
                  "EEEE-MM-dd HH:mm:ss.SSS") = true
              · intro h
                have h := ret_of_deferRelease _ _ _ h
                simp [hi] at h
              · have hfind2 : Db.find ({ w1.db with
                    log := w1.db.log ++ [Stmt.select TABLE_NAME group] }) group = none := hfind
                simp only [hi, Bool.false_eq_true, if_false, hfind2]
                intro _
                refine ⟨?_, ?_, ?_, ?_⟩
                · rw [deferRelease_db]
                  unfold Db.find at hfind ⊢
                  simp only
                  rw [← h1]
                  exact find_append_new w1.db.rows
                    ⟨group, start, step, 0, start, start, w1.db.clock⟩ hfind
                · rw [deferRelease_db, ← h1]
                · rw [deferRelease_db, ← h1]
                · unfold deferRelease releaseMysqlConnection connOf
                  simp [hp]
            · intro h
              have h := ret_of_deferRelease _ _ _ h
              simp at h
          · intro h
            have h := ret_of_deferRelease _ _ _ h
            cases gi <;> simp at h
        · intro h
          have h := ret_of_deferRelease _ _ _ h
          simp at h
    · simp

theorem Propel_goes (w : World) (group : String) (h : goesThrough w group) :
    (rangeOf (Propel w group).1).isSome = true ∧ goesThrough (Propel w group).2 group := by
  obtain ⟨hlen, hpool, ⟨m, hmap⟩, hfails, hlay, r, hfind, hb1, hb2, hb3, hb4, hb5⟩ := h
  have hb1' : r.start < 18446744073709551616 := hb1
  have hb2' : r.step < 18446744073709551616 := hb2
  have hb3' : r.count < 18446744073709551616 := hb3
  have hb4' : r.begin_ < 18446744073709551616 := hb4
  have hb5' : r.end_ < 18446744073709551616 := hb5
  have hcomp : (rangeOf (Propel w group).1).isSome = true ∧
      (Propel w group).2.mysqlConnPool =
        some { Id := "MySQL Connection Pool", Size := 1, idle := [.conn 0] } ∧
      ∃ m', (Propel w group).2.signMap = some m' := by
    unfold Propel getSign
    cases hlk : m.lookup group <;>
    simp [hlen, hmap, hlk, getMysqlConnection, hpool, Pool.Get, get_offset, hlay, hfails,
      hfind, hb1', hb2', hb3', hb4', hb5', Db.QueryFirst, deferRelease,
      releaseMysqlConnection, Pool.Put, connOf, rangeOf]
  obtain ⟨hsome, hpool', hmap'⟩ := hcomp
  refine ⟨hsome, hlen, hpool', hmap', ?_, ?_, ?_⟩
  · intro s; rw [(Propel_frame w group).2.1]; exact hfails s
  · rw [(Propel_frame w group).1]; exact hlay
  · obtain ⟨R, hR⟩ := Option.isSome_iff_exists.mp hsome
    obtain ⟨r', hfind', _, _, _, _, _, hafter⟩ := Propel_some w group R hlay hR
    rw [hfind] at hfind'
    cases hfind'
    exact ⟨_, hafter, hb1, hb2, Nat.mod_lt _ (by norm_num), Nat.mod_lt _ (by norm_num),
      Nat.mod_lt _ (by norm_num)⟩

theorem run_goes (group : String) (n : Nat) : ∀ (w : World),
    goesThrough w group → allSucceeded w group n = true := by
  induction n with
  | zero => intro w _; rfl
  | succ n ih =>
    intro w h
    rw [allSucceeded_succ, Bool.and_eq_true]
    exact ⟨(Propel_goes w group h).1, ih _ (Propel_goes w group h).2⟩

theorem run_step (group : String) (s : Nat) (n : Nat) : ∀ (w : World),
    w.db.resultRow = offsetRow → (∀ r, w.db.find group = some r → r.step = s) →
    ∀ r, (propelSeq w group n).2.db.find group = some r → r.step = s := by
  induction n with
  | zero => intro w _ h r hr; exact h r hr
  | succ n ih =>
    intro w hl h r hr
    have hl' : (Propel w group).2.db.resultRow = offsetRow := by
      rw [(Propel_frame w group).1]; exact hl
    refine ih (Propel w group).2 hl' ?_ r hr
    intro r1 hr1
    cases hrange : rangeOf (Propel w group).1 with
    | none =>
      rw [Propel_none w group hl hrange] at hr1
      exact h r1 hr1
    | some R =>
      obtain ⟨r0, hfind0, _, _, _, _, _, hafter⟩ := Propel_some w group R hl hrange
      rw [hafter] at hr1
      cases hr1
      exact h r0 hfind0

theorem Propel_select_no_range (w : World) (group : String)
    (hl : w.db.resultRow = selectRow) : rangeOf (Propel w group).1 = none := by
  unfold Propel
  by_cases hlen : group.length = 0
  · simp [hlen, rangeOf]
  · simp only [hlen, if_false]
    rcases hs : getSign w group with ⟨o, w0⟩
    have h0 : w0.db = w.db := by
      have := getSign_db w group; rw [hs] at this; exact this
    rcases o with (_ | s) | _
    · rfl
    · simp only
      rcases hc : getMysqlConnection w0 with ⟨oc, w1⟩
      have h1 : w1.db = w0.db := by
        have := getMysqlConnection_db w0; rw [hc] at this; exact this
      rcases oc with c | _
      · simp only
        apply deferRelease_no_range
        rcases c with err | c
        · rfl
        · simp only
          rcases hg : get w1 c group with ⟨og, w2⟩
          rcases og with ⟨gi, e⟩ | _
          · rcases e with _ | e
            · rcases gi with _ | gi
              · rfl
              · exact absurd (by rw [hg])
                  (get_select w1 c group (by rw [h1, h0]; exact hl) gi none)
            · cases gi <;> rfl
          · rfl
      · rfl
    · rfl

theorem run_select_nil (group : String) (n : Nat) : ∀ (w : World),
    w.db.resultRow = selectRow → returnedRanges w group n = [] := by
  induction n with
  | zero => intro w _; rfl
  | succ n ih =>
    intro w hl
    rw [returnedRanges_succ, Propel_select_no_range w group hl]
    exact ih _ (by rw [(Propel_frame w group).1]; exact hl)

/-! ## The claims -/

/-- C1: evaluation at a stored record with begin 1000, end 1000, step 2000. The
claim gives the range 2000 to 3000 and an update with these values; `Propel`
panics inside `get`, the database receives the select and no update, and the
record is unchanged. -/
theorem propel_of_stored_record_panics :
    storedWorld.db.find "g" = some ⟨"g", 1000, 2000, 0, 1000, 1000, 7⟩ ∧
    (Propel storedWorld "g").1 = .panic ∧
    (Propel storedWorld "g").2.db.log = [.select TABLE_NAME "g"] ∧
    (Propel storedWorld "g").2.db.find "g" = some ⟨"g", 1000, 2000, 0, 1000, 1000, 7⟩ := by
  decide

/-- C2, as stated, fails: on offset rows `BuildInfo("g", 2^63, 1)` and three
`Propel("g")` calls. Every call returns a range; the second returns 2^63+1 to
2^63+2, and the third, whose `begin + end` exceeds the largest `uint64`,
returns 3 to 2^63+3, which begins before the second range ends. -/
theorem ranges_regress_after_wrap :
    (BuildInfo offsetWorld "g" (2 ^ 63) 1).1 = .ret (true, none) ∧
    allSucceeded (BuildInfo offsetWorld "g" (2 ^ 63) 1).2 "g" 3 = true ∧
    returnedRanges (BuildInfo offsetWorld "g" (2 ^ 63) 1).2 "g" 3 =
      [⟨0, 2 ^ 63 + 1⟩, ⟨2 ^ 63 + 1, 2 ^ 63 + 2⟩, ⟨3, 2 ^ 63 + 3⟩] ∧
    ¬ (returnedRanges (BuildInfo offsetWorld "g" (2 ^ 63) 1).2 "g" 3).Pairwise
        (fun R1 R2 => R2.Begin ≥ R1.End) := by
  decide

/-- C2, amended: on the rows of mymysql and on offset rows, in a run of sequential
`Propel` calls for a group in which no addition `begin + end` or `end + step`
exceeds the largest `uint64`, a range returned later begins at or after the end
of every range returned earlier. -/
theorem ranges_ordered_without_overflow (w : World) (group : String) (n : Nat)
    (hrows : w.db.resultRow = selectRow ∨ w.db.resultRow = offsetRow)
    (hno : noOverflow w group n = true) :
    (returnedRanges w group n).Pairwise (fun R1 R2 => R2.Begin ≥ R1.End) := by
  rcases hrows with hsel | hoff
  · rw [run_select_nil group n w hsel]
    exact List.Pairwise.nil
  · exact run_pairwise group n w hoff hno

theorem ranges_ordered_without_overflow_witness :
    ((BuildInfo offsetWorld "g" 1000 2000).2.db.resultRow = selectRow ∨
      (BuildInfo offsetWorld "g" 1000 2000).2.db.resultRow = offsetRow) ∧
    noOverflow (BuildInfo offsetWorld "g" 1000 2000).2 "g" 4 = true ∧
    returnedRanges (BuildInfo offsetWorld "g" 1000 2000).2 "g" 4 =
      [⟨2000, 3000⟩, ⟨5000, 5000⟩, ⟨10000, 7000⟩, ⟨17000, 9000⟩] ∧
    (returnedRanges (BuildInfo offsetWorld "g" 1000 2000).2 "g" 4).Pairwise
      (fun R1 R2 => R2.Begin ≥ R1.End) :=
  ⟨Or.inr rfl, by decide, by decide,
    ranges_ordered_without_overflow (BuildInfo offsetWorld "g" 1000 2000).2 "g" 4
      (Or.inr rfl) (by decide)⟩

/-- C3, as stated, fails: on offset rows `BuildInfo("g", 1000, 2000)` and 2^64
`Propel("g")` calls. Every call returns a range, and the stored count, a
`uint64`, is 0 after the last call, not 2^64. -/
theorem count_wraps_after_two_pow_64 :
    (BuildInfo offsetWorld "g" 1000 2000).1 = .ret (true, none) ∧
    allSucceeded (BuildInfo offsetWorld "g" 1000 2000).2 "g" (2 ^ 64) = true ∧
    ((propelSeq (BuildInfo offsetWorld "g" 1000 2000).2 "g" (2 ^ 64)).2.db.find "g").map
      (fun x => x.count) = some 0 := by
  have hgo : goesThrough (BuildInfo offsetWorld "g" 1000 2000).2 "g" :=
    ⟨by decide, by decide, ⟨[], rfl⟩, fun _ => rfl, rfl,
      ⟨"g", 1000, 2000, 0, 1000, 1000, 7⟩, by decide, by decide, by decide, by decide,
      by decide, by decide⟩
  have hall := run_goes "g" (2 ^ 64) _ hgo
  refine ⟨by decide, hall, ?_⟩
  have hcount := run_count "g" (2 ^ 64) (BuildInfo offsetWorld "g" 1000 2000).2
    ⟨"g", 1000, 2000, 0, 1000, 1000, 7⟩ rfl (by decide) (by decide) hall
  exact hcount.trans (congrArg some (by decide))

/-- C3, amended: on the rows of mymysql and on offset rows, after `BuildInfo` has
created the record of a group and `n` sequential `Propel` calls have each
returned a range, the stored count is `n` modulo 2^64, which is `n` for every
`n` below 2^64. -/
theorem count_after_successful_propels (w : World) (group : String) (start step n : Nat)
    (hrows : w.db.resultRow = selectRow ∨ w.db.resultRow = offsetRow)
    (hbuilt : (BuildInfo w group start step).1 = .ret (true, none))
    (hsucc : allSucceeded (BuildInfo w group start step).2 group n = true) :
    ((propelSeq (BuildInfo w group start step).2 group n).2.db.find group).map
      (fun x => x.count) = some (n % 2 ^ 64) := by
  obtain ⟨hfind, hrows', _, _⟩ := BuildInfo_built w group start step hbuilt
  rcases hrows with hsel | hoff
  · cases n with
    | zero =>
      show ((BuildInfo w group start step).2.db.find group).map (fun x => x.count) = _
      rw [hfind]
      rfl
    | succ n =>
      rw [allSucceeded_succ, Bool.and_eq_true] at hsucc
      rw [Propel_select_no_range _ group (hrows'.trans hsel)] at hsucc
      exact absurd hsucc.1 (by simp)
  · have h := run_count group n (BuildInfo w group start step).2 _ (hrows'.trans hoff)
      hfind (by norm_num) hsucc
    simpa using h

theorem count_after_successful_propels_witness :
    (offsetWorld.db.resultRow = selectRow ∨ offsetWorld.db.resultRow = offsetRow) ∧
    (BuildInfo offsetWorld "g" 1000 2000).1 = .ret (true, none) ∧
    allSucceeded (BuildInfo offsetWorld "g" 1000 2000).2 "g" 3 = true ∧
    ((propelSeq (BuildInfo offsetWorld "g" 1000 2000).2 "g" 3).2.db.find "g").map
      (fun x => x.count) = some (3 % 2 ^ 64) :=
  ⟨Or.inr rfl, by decide, by decide,
    count_after_successful_propels offsetWorld "g" 1000 2000 3 (Or.inr rfl) (by decide)
      (by decide)⟩

/-- C4, as stated, fails: on offset rows `BuildInfo("g", 1000, 2000)` and three
`Propel("g")` calls. Every call returns a range; the third returns 10000 to
7000 and stores it, a range whose Begin is above its End. -/
theorem range_inverted_at_third_propel :
    (BuildInfo offsetWorld "g" 1000 2000).1 = .ret (true, none) ∧
    allSucceeded (BuildInfo offsetWorld "g" 1000 2000).2 "g" 3 = true ∧
    returnedRanges (BuildInfo offsetWorld "g" 1000 2000).2 "g" 3 =
      [⟨2000, 3000⟩, ⟨5000, 5000⟩, ⟨10000, 7000⟩] ∧
    (propelSeq (BuildInfo offsetWorld "g" 1000 2000).2 "g" 3).2.db.find "g" =
      some ⟨"g", 1000, 2000, 3, 10000, 7000, 7⟩ ∧
    ¬ (∀ R ∈ returnedRanges (BuildInfo offsetWorld "g" 1000 2000).2 "g" 3,
        R.Begin ≤ R.End) := by
  decide

/-- C4, amended: on the rows of mymysql and on offset rows, a group created by
`BuildInfo` has the stored range begin = end = start; a later `Propel` call
that returns a range, finding
the stored range `(b, e)` after `k` earlier calls, returns and stores
`((b + e) mod 2^64, (e + step) mod 2^64)`, and when neither sum exceeds the
largest `uint64` this range has Begin at most End exactly when `b` is at most
`step`. -/
theorem range_after_next_propel (w : World) (group : String) (start step k : Nat)
    (r : GroupRow) (R : IdRange)
    (hrows : w.db.resultRow = selectRow ∨ w.db.resultRow = offsetRow)
    (hstep : step < 2 ^ 32)
    (hbuilt : (BuildInfo w group start step).1 = .ret (true, none))
    (hfind : (propelSeq (BuildInfo w group start step).2 group k).2.db.find group = some r)
    (hR : rangeOf (Propel (propelSeq (BuildInfo w group start step).2 group k).2 group).1
      = some R) :
    (∃ r0, (BuildInfo w group start step).2.db.find group = some r0 ∧
      r0.begin_ = start ∧ r0.end_ = start) ∧
    R.Begin = (r.begin_ + r.end_) % 2 ^ 64 ∧ R.End = (r.end_ + step) % 2 ^ 64 ∧
    (∃ r1, (Propel (propelSeq (BuildInfo w group start step).2 group k).2 group).2.db.find
        group = some r1 ∧ r1.begin_ = R.Begin ∧ r1.end_ = R.End) ∧
    (r.begin_ + r.end_ < 2 ^ 64 → r.end_ + step < 2 ^ 64 →
      (R.Begin ≤ R.End ↔ r.begin_ ≤ step)) := by
  obtain ⟨hfind0, hrows0, _, _⟩ := BuildInfo_built w group start step hbuilt
  rcases hrows with hsel | hrows
  · have hlk : (propelSeq (BuildInfo w group start step).2 group k).2.db.resultRow
        = selectRow := by
      rw [(propelSeq_frame _ group k).1]; exact hrows0.trans hsel
    rw [Propel_select_no_range _ group hlk] at hR
    cases hR
  have hl0 : (BuildInfo w group start step).2.db.resultRow = offsetRow := hrows0.trans hrows
  have hlk : (propelSeq (BuildInfo w group start step).2 group k).2.db.resultRow
      = offsetRow := by
    rw [(propelSeq_frame _ group k).1]; exact hl0
  have hrstep : r.step = step := by
    refine run_step group step k _ hl0 ?_ r hfind
    intro r0 hr0
    rw [hfind0] at hr0
    cases hr0
    rfl
  obtain ⟨r', hfind', _, _, _, _, hReq, hafter⟩ := Propel_some _ group R hlk hR
  rw [hfind] at hfind'
  cases hfind'
  have hmod : step % 2 ^ 32 = step := Nat.mod_eq_of_lt hstep
  rw [hrstep, hmod] at hReq hafter
  refine ⟨⟨_, hfind0, rfl, rfl⟩, ?_, ?_, ⟨_, hafter, ?_, ?_⟩, ?_⟩
  · rw [hReq]
  · rw [hReq]
  · rw [hReq]
  · rw [hReq]
  · intro h1 h2
    rw [hReq]
    show (r.begin_ + r.end_) % 2 ^ 64 ≤ (r.end_ + step) % 2 ^ 64 ↔ r.begin_ ≤ step
    rw [Nat.mod_eq_of_lt h1, Nat.mod_eq_of_lt h2]
    omega

theorem range_after_next_propel_witness :
    (offsetWorld.db.resultRow = selectRow ∨ offsetWorld.db.resultRow = offsetRow) ∧
    2000 < 2 ^ 32 ∧
    (BuildInfo offsetWorld "g" 1000 2000).1 = .ret (true, none) ∧
    (propelSeq (BuildInfo offsetWorld "g" 1000 2000).2 "g" 2).2.db.find "g" =
      some ⟨"g", 1000, 2000, 2, 5000, 5000, 7⟩ ∧
    rangeOf (Propel (propelSeq (BuildInfo offsetWorld "g" 1000 2000).2 "g" 2).2 "g").1
      = some ⟨10000, 7000⟩ ∧
    ((∃ r0, (BuildInfo offsetWorld "g" 1000 2000).2.db.find "g" = some r0 ∧
      r0.begin_ = 1000 ∧ r0.end_ = 1000) ∧
    (10000 : Nat) = (5000 + 5000) % 2 ^ 64 ∧ (7000 : Nat) = (5000 + 2000) % 2 ^ 64 ∧
    (∃ r1, (Propel (propelSeq (BuildInfo offsetWorld "g" 1000 2000).2 "g" 2).2 "g").2.db.find
        "g" = some r1 ∧ r1.begin_ = 10000 ∧ r1.end_ = 7000) ∧
    (5000 + 5000 < 2 ^ 64 → 5000 + 2000 < 2 ^ 64 → ((10000 : Nat) ≤ 7000 ↔ 5000 ≤ 2000))) :=
  ⟨Or.inr rfl, by decide, by decide, by decide, by decide,
    range_after_next_propel offsetWorld "g" 1000 2000 2 ⟨"g", 1000, 2000, 2, 5000, 5000, 7⟩
      ⟨10000, 7000⟩ (Or.inr rfl) (by decide) (by decide) (by decide) (by decide)⟩

/-- C5: evaluation of `get` and `Get` on the record that `BuildInfo("g", 1000, 2000)`
stored. The select returns six values, at positions 0 to 5; `get` reads position 1,
the step, as the start, reads position 5, the time of `last_modified`, as the
end, and position 6 is outside the row, so `get` and `Get` panic where the claim
gives a GroupInfo. -/
theorem get_of_stored_record_panics :
    (BuildInfo readyWorld "g" 1000 2000).1 = .ret (true, none) ∧
    (BuildInfo readyWorld "g" 1000 2000).2.db.rows.map selectRow =
      [[.uint 1000, .uint 2000, .uint 0, .uint 1000, .uint 1000, .datetime 7]] ∧
    Row.Uint64 [.uint 1000, .uint 2000, .uint 0, .uint 1000, .uint 1000, .datetime 7] 1
      = some 2000 ∧
    Row.TimeUnix [.uint 1000, .uint 2000, .uint 0, .uint 1000, .uint 1000, .datetime 7] 6
      = none ∧
    (get (BuildInfo readyWorld "g" 1000 2000).2 0 "g").1 = .panic ∧
    (Get (BuildInfo readyWorld "g" 1000 2000).2 "g").1 = .panic := by
  decide

/-- C6: evaluation of two calls of `BuildInfo("g", 1000, 2000)` on the empty table.
The first returns `(true, nil)`; the second, where the claim gives `(false, nil)`,
panics inside `get`. The second call sends no insert and leaves the records as
the first call left them. -/
theorem second_BuildInfo_panics :
    (BuildInfo readyWorld "g" 1000 2000).1 = .ret (true, none) ∧
    (BuildInfo (BuildInfo readyWorld "g" 1000 2000).2 "g" 1000 2000).1 = .panic ∧
    (BuildInfo (BuildInfo readyWorld "g" 1000 2000).2 "g" 1000 2000).2.db.rows =
      (BuildInfo readyWorld "g" 1000 2000).2.db.rows ∧
    (BuildInfo (BuildInfo readyWorld "g" 1000 2000).2 "g" 1000 2000).2.db.log =
      [.select TABLE_NAME "g", .insert TABLE_NAME "g" 1000 2000 0 1000 1000 "EEEE-MM-dd HH:mm:ss.SSS",
        .select TABLE_NAME "g"] := by
  decide

/-- C7: with the empty group name `BuildInfo`, `Get` and `Propel` each return a
non-nil error, with the result false, nil and nil, and leave the world as it
was: the pool keeps its connections, the database receives no statement and
keeps its records, and the sign map is the same. -/
theorem empty_group_rejected (w : World) (start step : Nat) :
    BuildInfo w "" start step = (.ret (false, some "The group name is INVALID!"), w) ∧
    Get w "" = (.ret (none, some "The group name is INVALID!"), w) ∧
    Propel w "" = (.ret (none, some "The group name is INVALID!"), w) :=
  ⟨rfl, rfl, rfl⟩

/-- C8: for a non-empty group with no record, when the sign map is initialised,
a connection is acquired and the select succeeds, `Get` returns `(nil, nil)` and
`Propel` returns `(nil, nil)`; `Propel` sends the select and no update, and the
records are unchanged. -/
theorem absent_group_is_not_failure (w : World) (group : String) (pool : Pool) (c : Nat)
    (rest : List Element) (m : List (String × Sign))
    (hgroup : group.length ≠ 0)
    (hpool : w.mysqlConnPool = some pool) (hidle : pool.idle = .conn c :: rest)
    (hmap : w.signMap = some m)
    (habsent : w.db.find group = none)
    (hselect : w.db.fails (.select TABLE_NAME group) = false) :
    (Get w group).1 = .ret (none, none) ∧
    (Propel w group).1 = .ret (none, none) ∧
    (Propel w group).2.db.log = w.db.log ++ [.select TABLE_NAME group] ∧
    (Propel w group).2.db.rows = w.db.rows := by
  refine ⟨?_, ?_, ?_, ?_⟩
  · unfold Get
    simp [hgroup, getMysqlConnection, hpool, Pool.Get, hidle, get_absent, hselect, habsent,
      deferRelease, releaseMysqlConnection, connOf]
  · unfold Propel getSign
    cases hl : m.lookup group <;>
    simp [hgroup, hmap, hl, getMysqlConnection, hpool, Pool.Get, hidle, get_absent, hselect,
      habsent, deferRelease, releaseMysqlConnection, connOf]
  · unfold Propel getSign
    cases hl : m.lookup group <;>
    simp [hgroup, hmap, hl, getMysqlConnection, hpool, Pool.Get, hidle, get_absent, hselect,
      habsent, deferRelease, releaseMysqlConnection, connOf]
  · unfold Propel getSign
    cases hl : m.lookup group <;>
    simp [hgroup, hmap, hl, getMysqlConnection, hpool, Pool.Get, hidle, get_absent, hselect,
      habsent, deferRelease, releaseMysqlConnection, connOf]

theorem absent_group_is_not_failure_witness :
    (Get readyWorld "g").1 = .ret (none, none) ∧
    (Propel readyWorld "g").1 = .ret (none, none) ∧
    (Propel readyWorld "g").2.db.log = readyWorld.db.log ++ [.select TABLE_NAME "g"] ∧
    (Propel readyWorld "g").2.db.rows = readyWorld.db.rows :=
  absent_group_is_not_failure readyWorld "g"
    { Id := "MySQL Connection Pool", Size := 1, idle := [.conn 0] } 0 [] []
    (by decide) rfl rfl rfl rfl rfl

/-- C10: evaluation of `initializeForStorageProvider` on the world before
initialisation, with a configuration whose pool is constructed without error.
The function returns nil, the sign map is the empty map and the provider carries
the configured name, but the package-level `mysqlConnPool` is still nil where
the claim gives the constructed pool. -/
theorem initialize_leaves_pool_nil :
    (Pool.Init { Id := "MySQL Connection Pool", Size := 2, idle := [] }
        (fun i => .ok (.conn i))) =
      .ok { Id := "MySQL Connection Pool", Size := 2, idle := [.conn 0, .conn 1] } ∧
    (initializeForStorageProvider freshWorld sampleParameter (fun i => .ok i)).1 = none ∧
    (initializeForStorageProvider freshWorld sampleParameter (fun i => .ok i)).2.mysqlConnPool
      = none ∧
    (initializeForStorageProvider freshWorld sampleParameter (fun i => .ok i)).2.signMap
      = some [] ∧
    (initializeForStorageProvider freshWorld sampleParameter
        (fun i => .ok i)).2.iMysqlStorageProvider = some { ProviderName := "idcenter" } :=
  ⟨rfl, rfl, rfl, rfl, rfl⟩

end IdCenter
